import Mathlib

/-!
Shallow embedding of `drivers/gpu/msm/adreno_iommu.c` (Adreno GPU IOMMU
pagetable-switch command-stream synthesizer) and proofs of its specified
properties.

The C code builds sequences of 32-bit PM4 command words in a transient
buffer and hands them to an external ring-buffer submission interface.
The PM4 packet encoders (`cp_type7_packet`, `cp_mem_packet`, ...) are
declared in headers that are not part of this repository's core file, so
a command word is modelled as a tagged value rather than a raw 32-bit
pattern; each constructor stands for exactly one 32-bit word, so list
length equals the C word count (`cmds - cmds_orig`).
-/

/-- One 32-bit command word.  Each constructor is one word. -/
inductive Word where
  /-- header word produced by `cp_packet` / `cp_type7_packet` -/
  | pkt (op : Nat) (cnt : Nat)
  /-- header word produced by `cp_type4_packet` (register write) -/
  | type4 (reg : Nat) (cnt : Nat)
  /-- header word produced by `cp_register` -/
  | regw (reg : Nat) (cnt : Nat)
  /-- header word produced by `cp_mem_packet` -/
  | memPkt (op : Nat) (size : Nat) (num : Nat)
  /-- low half of a GPU virtual address, from `cp_gpuaddr` -/
  | addrLo (v : Nat)
  /-- high half of a GPU virtual address, from `cp_gpuaddr` -/
  | addrHi (v : Nat)
  /-- plain payload word -/
  | val (v : Nat)
deriving DecidableEq, Repr

/- Opcode and register constants from `adreno_pm4types.h` / `a6xx_reg.h`
   (external headers; the concrete numeric values only serve as tags). -/

def CP_WAIT_FOR_IDLE : Nat := 0x26
def CP_WAIT_FOR_ME : Nat := 0x13
def CP_INDIRECT_BUFFER_PFE : Nat := 0x3f
def CP_SMMU_TABLE_UPDATE : Nat := 0x53
def CP_MEM_WRITE : Nat := 0x3d
def CP_WAIT_REG_MEM : Nat := 0x3c
def CP_EVENT_WRITE : Nat := 0x46
def CP_NOP : Nat := 0x10
def CP_INVALIDATE_STATE : Nat := 0x3b
def A6XX_RBBM_PERFCTR_SRAM_INIT_CMD : Nat := 0x1e0
def A6XX_RBBM_PERFCTR_SRAM_INIT_STATUS : Nat := 0x1e1
def CONTEXT_TO_MEM_IDENTIFIER : Nat := 0x2EADBEEF
def KGSL_CMD_FLAGS_PMODE : Nat := 1
def KGSL_IOMMU_SETSTATE_NOP_OFFSET : Nat := 0x10

/-- `PAGE_SIZE / sizeof(unsigned int)`: capacity in words of the transient
buffer allocated by `_set_pagetable_gpu` (one 4096-byte page). -/
def PAGE_WORDS : Nat := 1024

/-- Modelled from the spec: `PT_INFO_OFFSET(ttbr0)` — fixed byte offset of
the `ttbr0` field inside the per-ringbuffer pagetable-info shadow record
(macro defined outside this file). -/
def PT_INFO_OFFSET_ttbr0 : Nat := 0

def ENOMEM : Int := 12

/-- `lower_32_bits` of a 64-bit value. -/
def lower_32_bits (x : Nat) : Nat := x % 2 ^ 32

/-- `upper_32_bits` of a 64-bit value. -/
def upper_32_bits (x : Nat) : Nat := x / 2 ^ 32 % 2 ^ 32

/-- Address-space descriptor (`struct kgsl_pagetable`).  `handle` stands for
the C object's identity (pointer value); `ttbr0` and `contextidr` are the two
derived values read through the external accessors
`kgsl_mmu_pagetable_get_ttbr0` / `_get_contextidr`. -/
structure Pagetable where
  handle : Nat
  ttbr0 : Nat
  contextidr : Nat
deriving DecidableEq, Repr

/-- Execution context (`struct adreno_context`): its `base.id` and the
pagetable reached through `base.proc_priv->pagetable`. -/
structure AdrenoContext where
  id : Nat
  pagetable : Pagetable
deriving DecidableEq, Repr

/-- The device-scoped state read by this file: feature flags, fault bit, MMU
type, and the device-owned addresses and identifiers the generators embed
into command words. -/
structure AdrenoDevice where
  /-- `ADRENO_FEATURE(adreno_dev, ADRENO_APRIV)` -/
  apriv : Bool
  /-- `adreno_dev->perfcounter` -/
  perfcounter : Bool
  /-- `test_bit(ADRENO_DEVICE_FAULT, &adreno_dev->priv)` -/
  fault : Bool
  /-- `kgsl_mmu_get_mmutype(device) == KGSL_MMU_TYPE_NONE` -/
  mmuTypeNone : Bool
  /-- `adreno_getreg(adreno_dev, ADRENO_REG_CP_CNTL)` -/
  cpCntlReg : Nat
  /-- `device->mmu.defaultpagetable` -/
  defaultPagetable : Pagetable
  /-- `iommu->setstate.gpuaddr` -/
  setstateGpuaddr : Nat
  /-- `iommu->ctx[KGSL_IOMMU_CONTEXT_USER].cb_num` -/
  cbNum : Nat
  /-- `MEMSTORE_ID_GPU_ADDR(device, KGSL_MEMSTORE_GLOBAL, current_context)` -/
  memstoreGlobalCurrCtxAddr : Nat
deriving DecidableEq, Repr

/-- Ring buffer (`struct adreno_ringbuffer`): the fields this file reads. -/
structure AdrenoRingbuffer where
  /-- `rb->pagetable_desc.gpuaddr` -/
  pagetableDescGpuaddr : Nat
  /-- `rb->drawctxt_active` (NULL modelled as `none`) -/
  drawctxtActive : Option AdrenoContext
  /-- `MEMSTORE_RB_GPU_ADDR(device, rb, current_context)` -/
  memstoreRbCurrCtxAddr : Nat
deriving DecidableEq, Repr

/- PM4 encoding helpers.  Their bodies live in `adreno_pm4types.h`, outside
this repository's core file, so they are modelled from the spec (§4.1, §6,
§8): each helper appends the fixed word count the spec assigns to it. -/

/-- Modelled from the spec: `cp_wait_for_idle` (external helper) — one
idle-wait command word (§8 counts it as a single word). -/
def cp_wait_for_idle (_d : AdrenoDevice) : List Word :=
  [.pkt CP_WAIT_FOR_IDLE 0]

/-- Modelled from the spec: `cp_wait_for_me` (external helper) — one
command-processor-wait word (§8 counts it as a single word). -/
def cp_wait_for_me (_d : AdrenoDevice) : List Word :=
  [.pkt CP_WAIT_FOR_ME 0]

/-- Modelled from the spec: `cp_register` (external helper) — the header
word of a register-write packet (`registerWrite(registerId, count)`). -/
def cp_register (_d : AdrenoDevice) (reg cnt : Nat) : Word :=
  .regw reg cnt

/-- Modelled from the spec: `cp_packet` (external helper) — the header word
of a type-7 packet (`packetHeader(opcode, payloadWordCount)`). -/
def cp_packet (_d : AdrenoDevice) (op cnt : Nat) : Word :=
  .pkt op cnt

/-- Modelled from the spec: `cp_type7_packet` (external helper) — a type-7
packet header word. -/
def cp_type7_packet (op cnt : Nat) : Word :=
  .pkt op cnt

/-- Modelled from the spec: `cp_type4_packet` (external helper) — a type-4
register-write header word. -/
def cp_type4_packet (reg cnt : Nat) : Word :=
  .type4 reg cnt

/-- Modelled from the spec: `cp_mem_packet` (external helper) — the header
word of a memory packet (`memoryPacketHeader(opcode, payload, addrWords)`). -/
def cp_mem_packet (_d : AdrenoDevice) (op size num : Nat) : Word :=
  .memPkt op size num

/-- Modelled from the spec: `cp_gpuaddr` (external helper,
`encodeGpuAddress`) — writes the low then the high 32-bit half of a 64-bit
GPU virtual address, two words. -/
def cp_gpuaddr (_d : AdrenoDevice) (addr : Nat) : List Word :=
  [.addrLo (lower_32_bits addr), .addrHi (upper_32_bits addr)]

/-- Modelled from the spec: `cp_invalidate_state` (external helper) — the
"invalidate all cached base pointers" command, a single fixed-size command
of one header word (§4.6 item 4, §8 scenario). -/
def cp_invalidate_state (_d : AdrenoDevice) : List Word :=
  [.pkt CP_INVALIDATE_STATE 0]

/-- Modelled from the spec: `cp_identifier` (external helper) — the
trace-correlation marker: a one-payload NOP packet carrying the identifier
(two words). -/
def cp_identifier (d : AdrenoDevice) (id : Nat) : List Word :=
  [cp_packet d CP_NOP 1, .val id]

/- ----- functions of adreno_iommu.c itself ----- -/

/-- `_adreno_iommu_add_idle_cmds` (adreno_iommu.c:19). -/
def _adreno_iommu_add_idle_cmds (adreno_dev : AdrenoDevice) : List Word :=
  cp_wait_for_idle adreno_dev

/-- `adreno_iommu_set_apriv` (adreno_iommu.c:37): commands to set/reset the
APRIV bit; nothing on targets with native apriv control. -/
def adreno_iommu_set_apriv (adreno_dev : AdrenoDevice) (set : Bool) :
    List Word :=
  if adreno_dev.apriv then []
  else
    cp_wait_for_idle adreno_dev ++ cp_wait_for_me adreno_dev ++
      [cp_register adreno_dev adreno_dev.cpCntlReg 1] ++
      [if set then .val 1 else .val 0]

/-- `_adreno_iommu_add_idle_indirect_cmds` (adreno_iommu.c:58): stall the
prefetcher through a 2-word nop indirect buffer. -/
def _adreno_iommu_add_idle_indirect_cmds (adreno_dev : AdrenoDevice)
    (nop_gpuaddr : Nat) : List Word :=
  cp_wait_for_me adreno_dev ++
    [cp_mem_packet adreno_dev CP_INDIRECT_BUFFER_PFE 2 1] ++
    cp_gpuaddr adreno_dev nop_gpuaddr ++
    [.val 2] ++
    cp_wait_for_idle adreno_dev

/-- `_adreno_iommu_set_pt_v2_a6xx` (adreno_iommu.c:77): the v2/a6xx
pagetable-switch sequence generator. -/
def _adreno_iommu_set_pt_v2_a6xx (adreno_dev : AdrenoDevice)
    (ttbr0 contextidr : Nat) (rb : AdrenoRingbuffer) (cb_num : Nat) :
    List Word :=
  _adreno_iommu_add_idle_cmds adreno_dev ++
  cp_wait_for_me adreno_dev ++
  (if adreno_dev.perfcounter then []
   else [cp_type4_packet A6XX_RBBM_PERFCTR_SRAM_INIT_CMD 1, .val 0x1]) ++
  [cp_packet adreno_dev CP_SMMU_TABLE_UPDATE 4,
   .val (lower_32_bits ttbr0), .val (upper_32_bits ttbr0),
   .val contextidr, .val cb_num] ++
  [cp_mem_packet adreno_dev CP_MEM_WRITE 4 1] ++
  cp_gpuaddr adreno_dev (rb.pagetableDescGpuaddr + PT_INFO_OFFSET_ttbr0) ++
  [.val (lower_32_bits ttbr0), .val (upper_32_bits ttbr0),
   .val contextidr] ++
  cp_wait_for_me adreno_dev ++
  _adreno_iommu_add_idle_cmds adreno_dev ++
  (if adreno_dev.perfcounter then []
   else [cp_type7_packet CP_WAIT_REG_MEM 6, .val 0x3,
         .val A6XX_RBBM_PERFCTR_SRAM_INIT_STATUS, .val 0x0, .val 0x1,
         .val 0x1, .val 0x0])

/-- `adreno_iommu_set_pt_generate_cmds` (adreno_iommu.c:134): full switch
sequence — raise apriv, prefetch stall, pagetable switch, base-pointer
invalidate, lower apriv.  The device argument carries what the C code
reaches through `ADRENO_RB_DEVICE(rb)` and the iommu private data. -/
def adreno_iommu_set_pt_generate_cmds (adreno_dev : AdrenoDevice)
    (rb : AdrenoRingbuffer) (pt : Pagetable) : List Word :=
  adreno_iommu_set_apriv adreno_dev true ++
  _adreno_iommu_add_idle_indirect_cmds adreno_dev
    (adreno_dev.setstateGpuaddr + KGSL_IOMMU_SETSTATE_NOP_OFFSET) ++
  _adreno_iommu_set_pt_v2_a6xx adreno_dev pt.ttbr0 pt.contextidr rb
    adreno_dev.cbNum ++
  cp_invalidate_state adreno_dev ++
  adreno_iommu_set_apriv adreno_dev false

/-- `__add_curr_ctxt_cmds` (adreno_iommu.c:175): context-record
sub-sequence — marker, two memory writes of the context id (0 when the
context is NULL), UCHE cache invalidate. -/
def __add_curr_ctxt_cmds (adreno_dev : AdrenoDevice)
    (rb : AdrenoRingbuffer) (drawctxt : Option AdrenoContext) : List Word :=
  cp_identifier adreno_dev CONTEXT_TO_MEM_IDENTIFIER ++
  [cp_mem_packet adreno_dev CP_MEM_WRITE 2 1] ++
  cp_gpuaddr adreno_dev rb.memstoreRbCurrCtxAddr ++
  [.val (match drawctxt with | some c => c.id | none => 0)] ++
  [cp_mem_packet adreno_dev CP_MEM_WRITE 2 1] ++
  cp_gpuaddr adreno_dev adreno_dev.memstoreGlobalCurrCtxAddr ++
  [.val (match drawctxt with | some c => c.id | none => 0)] ++
  [cp_packet adreno_dev CP_EVENT_WRITE 1, .val 0x31]

/-- One call to the external transport
`adreno_ringbuffer_issue_internal_cmds(rb, flags, buffer, count)`:
the flags, the buffer contents and the word count it was handed. -/
structure Submission where
  flags : Nat
  words : List Word
  count : Nat
deriving DecidableEq, Repr

/-- The external ring-buffer transport, as an oracle mapping each call
(flags, words, count) to the result code it returns. -/
def Issue : Type := Nat → List Word → Nat → Int

/-- Result of a synthesis-and-submit call: the returned code, the
submissions handed to the transport (in order), and whether the capacity
WARN diagnostic fired. -/
structure GpuResult where
  result : Int
  subs : List Submission
  warned : Bool
deriving DecidableEq, Repr

/-- Lines 246–259 of `_set_pagetable_gpu`: given the built command list,
WARN (diagnostic only) when the word count exceeds the transient buffer
capacity, then hand buffer and count to the transport unconditionally. -/
def _set_pagetable_gpu_submit (issue : Issue) (cmds : List Word) :
    GpuResult :=
  { result := issue KGSL_CMD_FLAGS_PMODE cmds cmds.length
    subs := [⟨KGSL_CMD_FLAGS_PMODE, cmds, cmds.length⟩]
    warned := cmds.length > PAGE_WORDS }

/-- `_set_pagetable_gpu` (adreno_iommu.c:229).  `allocOk` is whether the
`kmalloc(PAGE_SIZE, GFP_KERNEL)` of the transient buffer succeeds; the
allocation happens before the fault-flag test. -/
def _set_pagetable_gpu (issue : Issue) (allocOk : Bool)
    (adreno_dev : AdrenoDevice) (rb : AdrenoRingbuffer)
    (new_pt : Pagetable) : GpuResult :=
  if ¬allocOk then ⟨-ENOMEM, [], false⟩
  else if adreno_dev.fault then ⟨0, [], false⟩
  else _set_pagetable_gpu_submit issue
    (adreno_iommu_set_pt_generate_cmds adreno_dev rb new_pt)

/-- `_set_ctxt_gpu` (adreno_iommu.c:210): build the context-record
sub-sequence in a 15-word stack buffer and submit it with flags 0.
Returns the transport result and the submission made. -/
def _set_ctxt_gpu (issue : Issue) (adreno_dev : AdrenoDevice)
    (rb : AdrenoRingbuffer) (drawctxt : Option AdrenoContext) :
    Int × List Submission :=
  let cmds := __add_curr_ctxt_cmds adreno_dev rb drawctxt
  (issue 0 cmds cmds.length, [⟨0, cmds, cmds.length⟩])

/-- The pagetable currently active for `rb` as computed at
adreno_iommu.c:301–307: the active draw context's pagetable, or the
device's default pagetable when no context is active. -/
def current_pt (adreno_dev : AdrenoDevice) (rb : AdrenoRingbuffer) :
    Pagetable :=
  match rb.drawctxtActive with
  | some c => c.pagetable
  | none => adreno_dev.defaultPagetable

/-- `adreno_iommu_set_pt_ctx` (adreno_iommu.c:295): top-level entry point.
If an MMU is attached and the requested pagetable differs from the active
one, run the pagetable switch; on its failure return immediately.
Otherwise (and on switch success) submit the context record and return its
result. -/
def adreno_iommu_set_pt_ctx (issue : Issue) (allocOk : Bool)
    (adreno_dev : AdrenoDevice) (rb : AdrenoRingbuffer)
    (new_pt : Pagetable) (drawctxt : Option AdrenoContext) : GpuResult :=
  if ¬adreno_dev.mmuTypeNone then
    if new_pt ≠ current_pt adreno_dev rb then
      let r := _set_pagetable_gpu issue allocOk adreno_dev rb new_pt
      if r.result ≠ 0 then r
      else
        let c := _set_ctxt_gpu issue adreno_dev rb drawctxt
        ⟨c.1, r.subs ++ c.2, r.warned⟩
    else
      let c := _set_ctxt_gpu issue adreno_dev rb drawctxt
      ⟨c.1, c.2, false⟩
  else
    let c := _set_ctxt_gpu issue adreno_dev rb drawctxt
    ⟨c.1, c.2, false⟩

/- ----- sample values used by witnesses and counterexamples ----- -/

/-- A transport oracle that accepts every submission with result 0. -/
def issue0 : Issue := fun _ _ _ => 0

/-- Sample pagetable (also `dev0.defaultPagetable`). -/
def pt0 : Pagetable := ⟨0, 0x1000, 5⟩

/-- A second, distinct sample pagetable. -/
def pt1 : Pagetable := ⟨1, 0x2000, 6⟩

/-- Sample device: no native APRIV, perfcounters inactive, no fault, MMU
attached. -/
def dev0 : AdrenoDevice :=
  ⟨false, false, false, false, 0x38, pt0, 0x4000, 2, 0x5000⟩

/-- Sample device in fault-recovery state (otherwise like `dev0`). -/
def devF : AdrenoDevice :=
  ⟨false, false, true, false, 0x38, pt0, 0x4000, 2, 0x5000⟩

/-- Sample device whose MMU type is `KGSL_MMU_TYPE_NONE`. -/
def devN : AdrenoDevice :=
  ⟨false, false, false, true, 0x38, pt0, 0x4000, 2, 0x5000⟩

/-- Sample ring buffer with no active draw context. -/
def rb0 : AdrenoRingbuffer := ⟨0x6000, none, 0x7000⟩

/-- A command list one word longer than the transient buffer capacity. -/
def bigCmds : List Word := List.replicate (PAGE_WORDS + 1) (.val 0)

/- ----- claim theorems ----- -/

/-- C4: the variant-v2 pagetable-switch generator emits exactly, in order:
idle-wait; CP wait; (counters inactive) a register write setting the
perf-counter SRAM-init command register to 1; one 4-payload SMMU
table-update command (ttbr0 low, ttbr0 high, contextidr, context bank);
one memory write of ttbr0 low/high and contextidr to the ring buffer's
pagetable-info shadow location; CP wait; idle-wait; (counters inactive) a
wait-on-memory-register poll of the SRAM-init status register for value 1.
Its word count is the length of this list and it has no failure path. -/
theorem pt_v2_a6xx_emits_exactly (d : AdrenoDevice) (ttbr0 contextidr : Nat)
    (rb : AdrenoRingbuffer) (cb_num : Nat) :
    _adreno_iommu_set_pt_v2_a6xx d ttbr0 contextidr rb cb_num =
      [Word.pkt CP_WAIT_FOR_IDLE 0, Word.pkt CP_WAIT_FOR_ME 0] ++
      (if d.perfcounter then []
       else [Word.type4 A6XX_RBBM_PERFCTR_SRAM_INIT_CMD 1, Word.val 1]) ++
      [Word.pkt CP_SMMU_TABLE_UPDATE 4,
       Word.val (lower_32_bits ttbr0), Word.val (upper_32_bits ttbr0),
       Word.val contextidr, Word.val cb_num,
       Word.memPkt CP_MEM_WRITE 4 1,
       Word.addrLo (lower_32_bits
         (rb.pagetableDescGpuaddr + PT_INFO_OFFSET_ttbr0)),
       Word.addrHi (upper_32_bits
         (rb.pagetableDescGpuaddr + PT_INFO_OFFSET_ttbr0)),
       Word.val (lower_32_bits ttbr0), Word.val (upper_32_bits ttbr0),
       Word.val contextidr,
       Word.pkt CP_WAIT_FOR_ME 0, Word.pkt CP_WAIT_FOR_IDLE 0] ++
      (if d.perfcounter then []
       else [Word.pkt CP_WAIT_REG_MEM 6, Word.val 3,
             Word.val A6XX_RBBM_PERFCTR_SRAM_INIT_STATUS, Word.val 0,
             Word.val 1, Word.val 1, Word.val 0]) := by
  by_cases h : d.perfcounter <;>
    simp [_adreno_iommu_set_pt_v2_a6xx, h, _adreno_iommu_add_idle_cmds,
      cp_wait_for_idle, cp_wait_for_me, cp_packet, cp_type4_packet,
      cp_type7_packet, cp_mem_packet, cp_gpuaddr]

/-- C7: the privilege toggler emits nothing (returning count 0) on variants
with native APRIV; otherwise it emits wait-for-idle, wait-for-me, then a
register write of the privilege control register with payload 1 when
raising and 0 when lowering; the word count is the same for raise and
lower on any given variant. -/
theorem set_apriv_emits (d : AdrenoDevice) (s : Bool) :
    adreno_iommu_set_apriv d s =
      (if d.apriv then []
       else [Word.pkt CP_WAIT_FOR_IDLE 0, Word.pkt CP_WAIT_FOR_ME 0,
             Word.regw d.cpCntlReg 1, Word.val (if s then 1 else 0)])
    ∧ (adreno_iommu_set_apriv d true).length =
        (adreno_iommu_set_apriv d false).length := by
  constructor
  · by_cases h : d.apriv <;> cases s <;>
      simp [adreno_iommu_set_apriv, h, cp_wait_for_idle, cp_wait_for_me,
        cp_register]
  · by_cases h : d.apriv <;>
      simp [adreno_iommu_set_apriv, h, cp_wait_for_idle, cp_wait_for_me,
        cp_register]

/-- C8: the context-record builder writes 0 into both the ring-buffer-local
and the global current-context tracking locations when the draw context is
absent, and the context's id into both when it is present. -/
theorem curr_ctxt_writes_id_or_zero (d : AdrenoDevice)
    (rb : AdrenoRingbuffer) :
    __add_curr_ctxt_cmds d rb none =
      [Word.pkt CP_NOP 1, Word.val CONTEXT_TO_MEM_IDENTIFIER,
       Word.memPkt CP_MEM_WRITE 2 1,
       Word.addrLo (lower_32_bits rb.memstoreRbCurrCtxAddr),
       Word.addrHi (upper_32_bits rb.memstoreRbCurrCtxAddr),
       Word.val 0,
       Word.memPkt CP_MEM_WRITE 2 1,
       Word.addrLo (lower_32_bits d.memstoreGlobalCurrCtxAddr),
       Word.addrHi (upper_32_bits d.memstoreGlobalCurrCtxAddr),
       Word.val 0,
       Word.pkt CP_EVENT_WRITE 1, Word.val 0x31]
    ∧ ∀ c : AdrenoContext, __add_curr_ctxt_cmds d rb (some c) =
      [Word.pkt CP_NOP 1, Word.val CONTEXT_TO_MEM_IDENTIFIER,
       Word.memPkt CP_MEM_WRITE 2 1,
       Word.addrLo (lower_32_bits rb.memstoreRbCurrCtxAddr),
       Word.addrHi (upper_32_bits rb.memstoreRbCurrCtxAddr),
       Word.val c.id,
       Word.memPkt CP_MEM_WRITE 2 1,
       Word.addrLo (lower_32_bits d.memstoreGlobalCurrCtxAddr),
       Word.addrHi (upper_32_bits d.memstoreGlobalCurrCtxAddr),
       Word.val c.id,
       Word.pkt CP_EVENT_WRITE 1, Word.val 0x31] := by
  constructor
  · simp [__add_curr_ctxt_cmds, cp_identifier, cp_packet, cp_mem_packet,
      cp_gpuaddr]
  · intro c
    simp [__add_curr_ctxt_cmds, cp_identifier, cp_packet, cp_mem_packet,
      cp_gpuaddr]

/-- C10: for every context argument the context-record sub-sequence is at
most 15 words long (it is exactly 12), so it fits the 15-word stack buffer
of `_set_ctxt_gpu`, and the count handed to the submission interface
equals the number of words actually written. -/
theorem ctxt_record_fits_stack_buffer (issue : Issue) (d : AdrenoDevice)
    (rb : AdrenoRingbuffer) (drawctxt : Option AdrenoContext) :
    (__add_curr_ctxt_cmds d rb drawctxt).length ≤ 15
    ∧ (_set_ctxt_gpu issue d rb drawctxt).2 =
        [⟨0, __add_curr_ctxt_cmds d rb drawctxt,
          (__add_curr_ctxt_cmds d rb drawctxt).length⟩] := by
  refine ⟨?_, rfl⟩
  cases drawctxt <;>
    simp [__add_curr_ctxt_cmds, cp_identifier, cp_packet, cp_mem_packet,
      cp_gpuaddr]

/-- C1: every non-skipped synthesis submits a word stream that is, in fixed
order, the privilege-raise sub-sequence (possibly empty), the
prefetch-stall sub-sequence, the pagetable-switch sub-sequence, a single
base-pointer-invalidate command word, and the privilege-lower
sub-sequence; a raise is emitted exactly when a later lower is. -/
theorem switch_stream_ordering (issue : Issue) (allocOk : Bool)
    (d : AdrenoDevice) (rb : AdrenoRingbuffer) (pt : Pagetable)
    (hA : allocOk = true) (hF : d.fault = false) :
    (_set_pagetable_gpu issue allocOk d rb pt).subs =
      [⟨KGSL_CMD_FLAGS_PMODE,
        adreno_iommu_set_apriv d true ++
          _adreno_iommu_add_idle_indirect_cmds d
            (d.setstateGpuaddr + KGSL_IOMMU_SETSTATE_NOP_OFFSET) ++
          _adreno_iommu_set_pt_v2_a6xx d pt.ttbr0 pt.contextidr rb d.cbNum ++
          cp_invalidate_state d ++
          adreno_iommu_set_apriv d false,
        (adreno_iommu_set_pt_generate_cmds d rb pt).length⟩]
    ∧ (cp_invalidate_state d).length = 1
    ∧ (adreno_iommu_set_apriv d true = [] ↔
        adreno_iommu_set_apriv d false = []) := by
  subst hA
  refine ⟨?_, rfl, ?_⟩
  · simp [_set_pagetable_gpu, hF, _set_pagetable_gpu_submit,
      adreno_iommu_set_pt_generate_cmds]
  · by_cases h : d.apriv <;>
      simp [adreno_iommu_set_apriv, h, cp_wait_for_idle, cp_wait_for_me]

/-- Witness for `switch_stream_ordering` at concrete inputs. -/
theorem switch_stream_ordering_witness :
    (true = true ∧ dev0.fault = false)
    ∧ ((_set_pagetable_gpu issue0 true dev0 rb0 pt1).subs =
        [⟨KGSL_CMD_FLAGS_PMODE,
          adreno_iommu_set_apriv dev0 true ++
            _adreno_iommu_add_idle_indirect_cmds dev0
              (dev0.setstateGpuaddr + KGSL_IOMMU_SETSTATE_NOP_OFFSET) ++
            _adreno_iommu_set_pt_v2_a6xx dev0 pt1.ttbr0 pt1.contextidr rb0
              dev0.cbNum ++
            cp_invalidate_state dev0 ++
            adreno_iommu_set_apriv dev0 false,
          (adreno_iommu_set_pt_generate_cmds dev0 rb0 pt1).length⟩]
      ∧ (cp_invalidate_state dev0).length = 1
      ∧ (adreno_iommu_set_apriv dev0 true = [] ↔
          adreno_iommu_set_apriv dev0 false = [])) :=
  ⟨⟨rfl, rfl⟩, switch_stream_ordering issue0 true dev0 rb0 pt1 rfl rfl⟩

/-- C2: with an MMU attached, a pagetable-switch submission (the one made
with the privileged-mode flag) can only occur when the requested pagetable
differs from the one active for the ring buffer; when it is the same, the
request submits exactly the full context-record sub-sequence and zero
pagetable-switch words. -/
theorem pt_switch_only_on_change (issue : Issue) (allocOk : Bool)
    (d : AdrenoDevice) (rb : AdrenoRingbuffer) (new_pt : Pagetable)
    (drawctxt : Option AdrenoContext) (hM : d.mmuTypeNone = false) :
    ((∃ s ∈ (adreno_iommu_set_pt_ctx issue allocOk d rb new_pt
        drawctxt).subs, s.flags = KGSL_CMD_FLAGS_PMODE) →
      new_pt ≠ current_pt d rb)
    ∧ (new_pt = current_pt d rb →
        (adreno_iommu_set_pt_ctx issue allocOk d rb new_pt drawctxt).subs =
          [⟨0, __add_curr_ctxt_cmds d rb drawctxt,
            (__add_curr_ctxt_cmds d rb drawctxt).length⟩]) := by
  constructor
  · rintro ⟨s, hmem, hfl⟩ heq
    rw [adreno_iommu_set_pt_ctx] at hmem
    simp [hM, heq, _set_ctxt_gpu] at hmem
    subst hmem
    simp [KGSL_CMD_FLAGS_PMODE] at hfl
  · intro heq
    simp [adreno_iommu_set_pt_ctx, hM, heq, _set_ctxt_gpu]

/-- Witness for `pt_switch_only_on_change` at concrete inputs. -/
theorem pt_switch_only_on_change_witness :
    dev0.mmuTypeNone = false
    ∧ (((∃ s ∈ (adreno_iommu_set_pt_ctx issue0 true dev0 rb0 pt1
          none).subs, s.flags = KGSL_CMD_FLAGS_PMODE) →
        pt1 ≠ current_pt dev0 rb0)
      ∧ (pt1 = current_pt dev0 rb0 →
          (adreno_iommu_set_pt_ctx issue0 true dev0 rb0 pt1 none).subs =
            [⟨0, __add_curr_ctxt_cmds dev0 rb0 none,
              (__add_curr_ctxt_cmds dev0 rb0 none).length⟩])) :=
  ⟨rfl, pt_switch_only_on_change issue0 true dev0 rb0 pt1 none rfl⟩

/-- C6: when the built word list exceeds the transient buffer capacity, the
submit tail of `_set_pagetable_gpu` (lines 246–259) only raises the WARN
diagnostic; it still hands the buffer with its overflowed word count to the
transport and returns the transport's result, never a distinct error. -/
theorem capacity_overrun_submits_anyway (issue : Issue) (cmds : List Word)
    (h : cmds.length > PAGE_WORDS) :
    (_set_pagetable_gpu_submit issue cmds).warned = true
    ∧ (_set_pagetable_gpu_submit issue cmds).subs =
        [⟨KGSL_CMD_FLAGS_PMODE, cmds, cmds.length⟩]
    ∧ (_set_pagetable_gpu_submit issue cmds).result =
        issue KGSL_CMD_FLAGS_PMODE cmds cmds.length := by
  refine ⟨?_, rfl, rfl⟩
  simp [_set_pagetable_gpu_submit, h]

/-- Witness for `capacity_overrun_submits_anyway` at a concrete oversized
command list. -/
theorem capacity_overrun_submits_anyway_witness :
    bigCmds.length > PAGE_WORDS
    ∧ ((_set_pagetable_gpu_submit issue0 bigCmds).warned = true
      ∧ (_set_pagetable_gpu_submit issue0 bigCmds).subs =
          [⟨KGSL_CMD_FLAGS_PMODE, bigCmds, bigCmds.length⟩]
      ∧ (_set_pagetable_gpu_submit issue0 bigCmds).result =
          issue0 KGSL_CMD_FLAGS_PMODE bigCmds bigCmds.length) :=
  ⟨by simp [bigCmds],
    capacity_overrun_submits_anyway issue0 bigCmds (by simp [bigCmds])⟩

/-- C9: when the device's MMU type is `none`, the top-level entry point
performs no pagetable-switch generation or submission at all, submits
exactly the context-record sub-sequence, and returns its transport
result. -/
theorem mmu_none_skips_pt_switch (issue : Issue) (allocOk : Bool)
    (d : AdrenoDevice) (rb : AdrenoRingbuffer) (new_pt : Pagetable)
    (drawctxt : Option AdrenoContext) (h : d.mmuTypeNone = true) :
    adreno_iommu_set_pt_ctx issue allocOk d rb new_pt drawctxt =
      ⟨issue 0 (__add_curr_ctxt_cmds d rb drawctxt)
         (__add_curr_ctxt_cmds d rb drawctxt).length,
       [⟨0, __add_curr_ctxt_cmds d rb drawctxt,
         (__add_curr_ctxt_cmds d rb drawctxt).length⟩], false⟩ := by
  simp [adreno_iommu_set_pt_ctx, h, _set_ctxt_gpu]

/-- Witness for `mmu_none_skips_pt_switch` at concrete inputs. -/
theorem mmu_none_skips_pt_switch_witness :
    devN.mmuTypeNone = true
    ∧ adreno_iommu_set_pt_ctx issue0 true devN rb0 pt1 none =
        ⟨issue0 0 (__add_curr_ctxt_cmds devN rb0 none)
           (__add_curr_ctxt_cmds devN rb0 none).length,
         [⟨0, __add_curr_ctxt_cmds devN rb0 none,
           (__add_curr_ctxt_cmds devN rb0 none).length⟩], false⟩ :=
  ⟨rfl, mmu_none_skips_pt_switch issue0 true devN rb0 pt1 none rfl⟩

/-- C3 counterexample: with the MMU attached, a changed pagetable and a
failing transient-buffer allocation, the top-level entry point returns an
error having submitted nothing at all — no context-record sub-sequence is
emitted or submitted for that switch request. -/
theorem ctx_record_not_always_submitted :
    (adreno_iommu_set_pt_ctx issue0 false dev0 rb0 pt1 none).subs = []
    ∧ (adreno_iommu_set_pt_ctx issue0 false dev0 rb0 pt1 none).result ≠
        0 := by
  decide

/-- C3 (amended): for every switch request in which the pagetable-switch
phase does not fail — the MMU is absent, the pagetable is unchanged, or
`_set_pagetable_gpu` returns 0 — a context-record sub-sequence is emitted
and submitted (as the final submission), independent of whether the
address space actually changed, and its transport result is returned. -/
theorem ctx_record_submitted_unless_switch_fails (issue : Issue)
    (allocOk : Bool) (d : AdrenoDevice) (rb : AdrenoRingbuffer)
    (new_pt : Pagetable) (drawctxt : Option AdrenoContext)
    (h : d.mmuTypeNone = true ∨ new_pt = current_pt d rb ∨
         (_set_pagetable_gpu issue allocOk d rb new_pt).result = 0) :
    ∃ pre,
      (adreno_iommu_set_pt_ctx issue allocOk d rb new_pt drawctxt).subs =
        pre ++ [⟨0, __add_curr_ctxt_cmds d rb drawctxt,
                 (__add_curr_ctxt_cmds d rb drawctxt).length⟩]
      ∧ (adreno_iommu_set_pt_ctx issue allocOk d rb new_pt
          drawctxt).result =
          issue 0 (__add_curr_ctxt_cmds d rb drawctxt)
            (__add_curr_ctxt_cmds d rb drawctxt).length := by
  by_cases hM : d.mmuTypeNone
  · exact ⟨[], by simp [adreno_iommu_set_pt_ctx, hM, _set_ctxt_gpu]⟩
  · by_cases hEq : new_pt = current_pt d rb
    · exact ⟨[], by simp [adreno_iommu_set_pt_ctx, hM, hEq, _set_ctxt_gpu]⟩
    · have h0 : (_set_pagetable_gpu issue allocOk d rb new_pt).result =
          0 := by
        rcases h with h | h | h
        · exact absurd h hM
        · exact absurd h hEq
        · exact h
      refine ⟨(_set_pagetable_gpu issue allocOk d rb new_pt).subs, ?_⟩
      simp [adreno_iommu_set_pt_ctx, hM, hEq, h0, _set_ctxt_gpu]

/-- Witness for `ctx_record_submitted_unless_switch_fails` at concrete
inputs (MMU type none). -/
theorem ctx_record_submitted_unless_switch_fails_witness :
    (devN.mmuTypeNone = true ∨ pt1 = current_pt devN rb0 ∨
      (_set_pagetable_gpu issue0 true devN rb0 pt1).result = 0)
    ∧ ∃ pre,
        (adreno_iommu_set_pt_ctx issue0 true devN rb0 pt1 none).subs =
          pre ++ [⟨0, __add_curr_ctxt_cmds devN rb0 none,
                   (__add_curr_ctxt_cmds devN rb0 none).length⟩]
        ∧ (adreno_iommu_set_pt_ctx issue0 true devN rb0 pt1 none).result =
            issue0 0 (__add_curr_ctxt_cmds devN rb0 none)
              (__add_curr_ctxt_cmds devN rb0 none).length :=
  ⟨Or.inl rfl,
    ctx_record_submitted_unless_switch_fails issue0 true devN rb0 pt1 none
      (Or.inl rfl)⟩

/-- C5 counterexample: with the fault flag asserted, (a) a top-level switch
request still submits the context-record words to the hardware, so it is
not the case that nothing is submitted; and (b) when the transient-buffer
allocation fails, the pagetable-switch call reports an error, not
success. -/
theorem fault_does_not_suppress_everything :
    (adreno_iommu_set_pt_ctx issue0 true devF rb0 pt1 none).subs ≠ []
    ∧ (_set_pagetable_gpu issue0 false devF rb0 pt1).result ≠ 0 := by
  decide

/-- C5 (amended): when the fault flag is asserted and the transient-buffer
allocation succeeds, the pagetable-switch phase generates no command
words, submits nothing, and reports success (0); the top-level request
then still emits and submits exactly the context-record sub-sequence. -/
theorem fault_skips_pt_switch (issue : Issue) (d : AdrenoDevice)
    (rb : AdrenoRingbuffer) (new_pt : Pagetable)
    (drawctxt : Option AdrenoContext) (hF : d.fault = true) :
    _set_pagetable_gpu issue true d rb new_pt = ⟨0, [], false⟩
    ∧ (d.mmuTypeNone = false →
        (adreno_iommu_set_pt_ctx issue true d rb new_pt drawctxt).subs =
          [⟨0, __add_curr_ctxt_cmds d rb drawctxt,
            (__add_curr_ctxt_cmds d rb drawctxt).length⟩]) := by
  have h1 : _set_pagetable_gpu issue true d rb new_pt = ⟨0, [], false⟩ := by
    simp [_set_pagetable_gpu, hF]
  refine ⟨h1, ?_⟩
  intro hM
  by_cases hEq : new_pt = current_pt d rb
  · simp [adreno_iommu_set_pt_ctx, hM, hEq, _set_ctxt_gpu]
  · simp [adreno_iommu_set_pt_ctx, hM, hEq, h1, _set_ctxt_gpu]

/-- Witness for `fault_skips_pt_switch` at concrete inputs. -/
theorem fault_skips_pt_switch_witness :
    devF.fault = true
    ∧ (_set_pagetable_gpu issue0 true devF rb0 pt1 = ⟨0, [], false⟩
      ∧ (devF.mmuTypeNone = false →
          (adreno_iommu_set_pt_ctx issue0 true devF rb0 pt1 none).subs =
            [⟨0, __add_curr_ctxt_cmds devF rb0 none,
              (__add_curr_ctxt_cmds devF rb0 none).length⟩])) :=
  ⟨rfl, fault_skips_pt_switch issue0 devF rb0 pt1 none rfl⟩
